import Mathlib

/-!
Shallow embedding of the authentication/session subsystem of the
Intern-Byte-Task1 repository: the JWT codec (`server/utils/jwt.js`),
the file-backed user / refresh-token store (`server/utils/database.js`),
the Express auth route handlers (register, login, refresh, logout,
logout-all, OAuth callbacks), the passport GitHub strategy callback
(`server/config/passport.js`), and the client-side axios response
interceptor (`services/authService.ts`).

Time is a single `Nat` millisecond clock.  A signed JWT is modelled as a
record of its payload, signing secret, issuer, audience and absolute
expiry; structural equality of this record coincides with equality of the
serialized token string, since the string is a function of exactly these
fields.  JavaScript truthiness of optional string fields is modelled by
`truthy` (absent or empty string is falsy).  Failures of the persistence
collaborator are injected by a `failAt : Option Nat` argument naming the
index of the storage call (in program order) that throws; the handlers'
`try/catch` translation routes such a failure to whatever response the
source's `catch` block produces.
-/

namespace Auth

/-- Claim payload carried by a signed token.  Register/login/oauth sign
access tokens with both `userId` and `email`; refresh tokens are signed
with `userId` only, so their `email` field is `none` (a JSON object never
acquires a key whose value is `undefined`). -/
structure Claims where
  userId : String
  email : Option String
deriving DecidableEq, Repr

/-- A signed JWT: payload plus the signing secret, registered claims and
absolute expiry (ms).  Two tokens are the same string iff these fields
coincide. -/
structure Jwt where
  claims : Claims
  secret : String
  issuer : String
  audience : String
  exp : Nat
deriving DecidableEq, Repr

def ACCESS_TOKEN_SECRET : String := "access-token-secret"
def REFRESH_TOKEN_SECRET : String := "refresh-token-secret"

/-- Fifteen minutes in ms (`expiresIn: '15m'`). -/
def accessTtl : Nat := 15 * 60 * 1000

/-- Seven days in ms (`expiresIn: '7d'`, and the store's expiry policy). -/
def refreshTtl : Nat := 7 * 24 * 60 * 60 * 1000

/-- Source function `generateAccessToken(payload)` from `server/utils/jwt.js`. -/
def generateAccessToken (payload : Claims) (now : Nat) : Jwt :=
  { claims := payload, secret := ACCESS_TOKEN_SECRET,
    issuer := "secure-auth-app", audience := "secure-auth-client",
    exp := now + accessTtl }

/-- Source function `generateRefreshToken(payload)` from `server/utils/jwt.js`. -/
def generateRefreshToken (payload : Claims) (now : Nat) : Jwt :=
  { claims := payload, secret := REFRESH_TOKEN_SECRET,
    issuer := "secure-auth-app", audience := "secure-auth-client",
    exp := now + refreshTtl }

/-- Model of `jwt.verify(token, secret, opts)` with issuer and audience checks: the token must be
signed with the expected secret, carry the expected issuer and audience,
and not be past its expiry. -/
def jwtVerify (t : Jwt) (secret : String) (now : Nat) : Option Claims :=
  if t.secret == secret && t.issuer == "secure-auth-app" &&
     t.audience == "secure-auth-client" && decide (now < t.exp)
  then some t.claims else none

/-- Source function `verifyRefreshToken(token)`; `none` models the thrown
`Invalid refresh token` error. -/
def verifyRefreshToken (t : Jwt) (now : Nat) : Option Claims :=
  jwtVerify t REFRESH_TOKEN_SECRET now

/-- JavaScript truthiness of an optional string field: `undefined` and the
empty string are falsy. -/
def truthy : Option String → Bool
  | none => false
  | some s => !(s == "")

/-- JavaScript `a || b` for an optional string `a`. -/
def jsOr (a : Option String) (b : String) : String :=
  match a with
  | none => b
  | some s => if s == "" then b else s

/-- A record of the `users` array in `users.json`.  Fields that a given
creation path does not supply are `none` (absent key). -/
structure User where
  id : String
  email : String
  password : Option String := none
  name : Option String := none
  avatar : Option String := none
  provider : Option String := none
  googleId : Option String := none
  githubId : Option String := none
  isVerified : Option Bool := none
  createdAt : Nat
  updatedAt : Nat
deriving DecidableEq, Repr

/-- The `userData` argument spread into a new user record. -/
structure UserData where
  email : String
  password : Option String := none
  name : Option String := none
  avatar : Option String := none
  provider : Option String := none
  googleId : Option String := none
  githubId : Option String := none
  isVerified : Option Bool := none
deriving DecidableEq, Repr

/-- A record of the `refreshTokens` array in `users.json`. -/
structure RefreshTokenRec where
  id : String
  userId : String
  token : Jwt
  createdAt : Nat
  expiresAt : Nat
deriving DecidableEq, Repr

/-- The whole JSON database file. -/
structure DB where
  users : List User
  refreshTokens : List RefreshTokenRec
deriving DecidableEq, Repr

/-- Replace the first element satisfying `p` by its image under `f`
(JS mutates the object returned by `Array.prototype.find`). -/
def updateFirst (p : α → Bool) (f : α → α) : List α → List α
  | [] => []
  | x :: xs => if p x then f x :: xs else x :: updateFirst p f xs

/-- Source function `createUser(userData)`: fresh id, spread `userData`, stamp timestamps,
push onto `db.users`. -/
def createUser (db : DB) (d : UserData) (newId : String) (now : Nat) :
    DB × User :=
  let u : User :=
    { id := newId, email := d.email, password := d.password, name := d.name,
      avatar := d.avatar, provider := d.provider, googleId := d.googleId,
      githubId := d.githubId, isVerified := d.isVerified,
      createdAt := now, updatedAt := now }
  ({ db with users := db.users ++ [u] }, u)

/-- Source function `getUserByEmail(email)`. -/
def getUserByEmail (db : DB) (email : String) : Option User :=
  db.users.find? (fun u => u.email == email)

/-- The in-place OAuth update `findOrCreateUser` performs on an existing
user: refresh `updatedAt`, and overwrite `googleId` / `githubId` /
`avatar` only when the incoming value is truthy. -/
def applyOAuthUpdate (d : UserData) (now : Nat) (u : User) : User :=
  let u1 := { u with updatedAt := now }
  let u2 := if truthy d.googleId then { u1 with googleId := d.googleId } else u1
  let u3 := if truthy d.githubId then { u2 with githubId := d.githubId } else u2
  if truthy d.avatar then { u3 with avatar := d.avatar } else u3

/-- Source function `findOrCreateUser(userData)`: look up by email; create when absent,
otherwise mutate the found record in place. -/
def findOrCreateUser (db : DB) (d : UserData) (newId : String) (now : Nat) :
    DB × User :=
  match db.users.find? (fun u => u.email == d.email) with
  | none => createUser db d newId now
  | some u =>
    ({ db with users := updateFirst (fun x => x.email == d.email)
                          (applyOAuthUpdate d now) db.users },
     applyOAuthUpdate d now u)

/-- Source function `saveRefreshToken(userId, token)`: push a record expiring 7 days from
now. -/
def saveRefreshToken (db : DB) (newId userId : String) (token : Jwt)
    (now : Nat) : DB × RefreshTokenRec :=
  let r : RefreshTokenRec :=
    { id := newId, userId := userId, token := token,
      createdAt := now, expiresAt := now + refreshTtl }
  ({ db with refreshTokens := db.refreshTokens ++ [r] }, r)

/-- Source function `getRefreshToken(token)`: first stored record with this token value
whose `expiresAt` lies strictly in the future. -/
def getRefreshToken (db : DB) (token : Jwt) (now : Nat) :
    Option RefreshTokenRec :=
  db.refreshTokens.find? (fun rt => rt.token == token && decide (now < rt.expiresAt))

/-- Source function `deleteRefreshToken(token)`: keep every record whose token differs. -/
def deleteRefreshToken (db : DB) (token : Jwt) : DB :=
  { db with refreshTokens := db.refreshTokens.filter (fun rt => !(rt.token == token)) }

/-- Source function `deleteUserRefreshTokens(userId)`: keep every record owned by another
user. -/
def deleteUserRefreshTokens (db : DB) (userId : String) : DB :=
  { db with refreshTokens := db.refreshTokens.filter (fun rt => !(rt.userId == userId)) }

/-- Whether the storage call with index `k` (program order within one
request) is the one the persistence collaborator fails on. -/
def failsAt (failAt : Option Nat) (k : Nat) : Bool :=
  failAt == some k

/-- The response payload strips the password field
(`const \x7b password: _, ...userWithoutPassword \x7d = user`). -/
def stripPassword (u : User) : User := { u with password := none }

/-- Responses of `POST /register`, tagged by the distinct `res.*` sites. -/
inductive RegisterResult where
  | validationFailed
  | userExists
  | created (user : User) (accessToken : Jwt) (refreshCookie : Jwt)
  | serverError
deriving DecidableEq, Repr

def RegisterResult.status : RegisterResult → Nat
  | .validationFailed => 400
  | .userExists => 409
  | .created _ _ _ => 201
  | .serverError => 500

/-- Responses of `POST /login`. -/
inductive LoginResult where
  | validationFailed
  | invalidCredentials
  | success (user : User) (accessToken : Jwt) (refreshCookie : Jwt)
  | serverError
deriving DecidableEq, Repr

def LoginResult.status : LoginResult → Nat
  | .validationFailed => 400
  | .invalidCredentials => 401
  | .success _ _ _ => 200
  | .serverError => 500

/-- Responses of `POST /refresh`.  The handler has no 500 path: both the
explicit store-miss branch and the `catch` block answer
403 `Invalid refresh token`, so they are one observable response. -/
inductive RefreshResult where
  | missingToken
  | invalidToken
  | success (accessToken : Jwt)
deriving DecidableEq, Repr

def RefreshResult.status : RefreshResult → Nat
  | .missingToken => 401
  | .invalidToken => 403
  | .success _ => 200

def RefreshResult.isSuccess : RefreshResult → Bool
  | .success _ => true
  | _ => false

/-- Responses of `POST /logout`. -/
inductive LogoutResult where
  | success
  | serverError
deriving DecidableEq, Repr

def LogoutResult.status : LogoutResult → Nat
  | .success => 200
  | .serverError => 500

/-- Responses of `POST /logout-all`. -/
inductive LogoutAllResult where
  | success
  | serverError
deriving DecidableEq, Repr

def LogoutAllResult.status : LogoutAllResult → Nat
  | .success => 200
  | .serverError => 500

/-- Responses of the OAuth callback handlers (both providers share the
same body): redirect with `?token=` on success, redirect with
`?error=oauth_failed` when anything throws. -/
inductive OAuthResult where
  | redirectSuccess (accessToken : Jwt)
  | redirectFailure
deriving DecidableEq, Repr

/-- Handler of `POST /register`.  `valid` is the outcome of the
express-validator chain (transport-level input validation, out of the
embedded core); `hashP` is the bcrypt collaborator; `uid`/`rid` are the
fresh ids `generateId` returns.  Storage calls in order:
0 `getUserByEmail`, 1 `createUser`, 2 `saveRefreshToken`. -/
def registerHandler (db : DB) (valid : Bool) (email pw nm : String)
    (hashP : String → String) (uid rid : String) (now : Nat)
    (failAt : Option Nat) : RegisterResult × DB :=
  if !valid then (.validationFailed, db)
  else if failsAt failAt 0 then (.serverError, db)
  else match getUserByEmail db email with
  | some _ => (.userExists, db)
  | none =>
    let hashed := hashP pw
    if failsAt failAt 1 then (.serverError, db)
    else
      let (db1, user) := createUser db
        { email := email, password := some hashed, name := some nm,
          provider := some "local", isVerified := some true } uid now
      let atk := generateAccessToken { userId := user.id, email := some user.email } now
      let rtk := generateRefreshToken { userId := user.id, email := none } now
      if failsAt failAt 2 then (.serverError, db1)
      else
        let (db2, _) := saveRefreshToken db1 rid user.id rtk now
        (.created (stripPassword user) atk rtk, db2)

/-- Handler of `POST /login`.  `cmp` is `bcrypt.compare`.  Storage calls:
0 `getUserByEmail`, 1 `saveRefreshToken`. -/
def loginHandler (db : DB) (valid : Bool) (email pw : String)
    (cmp : String → String → Bool) (rid : String) (now : Nat)
    (failAt : Option Nat) : LoginResult × DB :=
  if !valid then (.validationFailed, db)
  else if failsAt failAt 0 then (.serverError, db)
  else match getUserByEmail db email with
  | none => (.invalidCredentials, db)
  | some user =>
    if !truthy user.password then (.invalidCredentials, db)
    else if !cmp pw (user.password.getD "") then (.invalidCredentials, db)
    else
      let atk := generateAccessToken { userId := user.id, email := some user.email } now
      let rtk := generateRefreshToken { userId := user.id, email := none } now
      if failsAt failAt 1 then (.serverError, db)
      else
        let (db1, _) := saveRefreshToken db rid user.id rtk now
        (.success (stripPassword user) atk rtk, db1)

/-- Handler of `POST /refresh`.  Verification failure, store miss AND a
storage-collaborator failure (caught by the handler's `catch`) all answer
the same 403 `Invalid refresh token`; only an absent cookie answers 401.
Storage calls: 0 `getRefreshToken`. -/
def refreshHandler (db : DB) (cookie : Option Jwt) (now : Nat)
    (failAt : Option Nat) : RefreshResult × DB :=
  match cookie with
  | none => (.missingToken, db)
  | some rt =>
    match verifyRefreshToken rt now with
    | none => (.invalidToken, db)
    | some decoded =>
      if failsAt failAt 0 then (.invalidToken, db)
      else match getRefreshToken db rt now with
      | none => (.invalidToken, db)
      | some _ =>
        (.success (generateAccessToken { userId := decoded.userId, email := decoded.email } now), db)

/-- Handler of `POST /logout`: idempotent delete of the presented cookie.
Storage calls: 0 `deleteRefreshToken` (made only when a cookie is
present). -/
def logoutHandler (db : DB) (cookie : Option Jwt) (failAt : Option Nat) :
    LogoutResult × DB :=
  match cookie with
  | none => (.success, db)
  | some rt =>
    if failsAt failAt 0 then (.serverError, db)
    else (.success, deleteRefreshToken db rt)

/-- Handler of `POST /logout-all` (after `authenticateToken` has resolved the
caller to `userId`).  Storage calls: 0 `deleteUserRefreshTokens`. -/
def logoutAllHandler (db : DB) (userId : String) (failAt : Option Nat) :
    LogoutAllResult × DB :=
  if failsAt failAt 0 then (.serverError, db)
  else (.success, deleteUserRefreshTokens db userId)

/-- OAuth callback handler body (Google and GitHub are verbatim copies):
mint both tokens for the resolved user, persist the refresh token,
redirect with the access token.  Storage calls: 0 `saveRefreshToken`. -/
def oauthCallbackHandler (db : DB) (user : User) (rid : String) (now : Nat)
    (failAt : Option Nat) : OAuthResult × DB :=
  let atk := generateAccessToken { userId := user.id, email := some user.email } now
  let rtk := generateRefreshToken { userId := user.id, email := none } now
  if failsAt failAt 0 then (.redirectFailure, db)
  else
    let (db1, _) := saveRefreshToken db rid user.id rtk now
    (.redirectSuccess atk, db1)

/-- A provider profile as passport hands it to the strategy callback. -/
structure OAuthProfile where
  id : String
  username : String
  displayName : Option String
  emails : List String
  photos : List String
deriving DecidableEq, Repr

/-- The GitHub strategy callback's `userData`
(`server/config/passport.js`).  `profile.photos[0].value` is read without
optional chaining, so a profile with no photos throws (`Except.error`);
the email falls back to `<username>@github.local` when no public email is
exposed. -/
def githubStrategyUserData (p : OAuthProfile) : Except Unit UserData :=
  match p.photos.head? with
  | none => .error ()
  | some photo =>
    .ok { githubId := some p.id,
          email := jsOr p.emails.head? (p.username ++ "@github.local"),
          name := some (jsOr p.displayName p.username),
          avatar := some photo,
          provider := some "github" }

/-- Run the refresh handler once per entry of `nows`, threading the
database state between calls (the same cookie presented each time). -/
def refreshSeq (db : DB) (t : Jwt) : List Nat → List RefreshResult × DB
  | [] => ([], db)
  | now :: rest =>
    let (r, db1) := refreshHandler db (some t) now none
    let (rs, db2) := refreshSeq db1 t rest
    (r :: rs, db2)

/-- Uniqueness of `email` across the users array. -/
def EmailUnique (db : DB) : Prop :=
  (db.users.map User.email).Nodup

instance : DecidablePred EmailUnique := fun db =>
  inferInstanceAs (Decidable ((db.users.map User.email).Nodup))

/-- Uniqueness of the raw token value across the refresh-token array. -/
def TokenUnique (db : DB) : Prop :=
  (db.refreshTokens.map RefreshTokenRec.token).Nodup

instance : DecidablePred TokenUnique := fun db =>
  inferInstanceAs (Decidable ((db.refreshTokens.map RefreshTokenRec.token).Nodup))

/-- State held by the client `AuthService` singleton. -/
structure AgentState where
  token : Option Jwt
  storedToken : Option Jwt
  redirectedToLogin : Bool
deriving DecidableEq, Repr

/-- What happens to the failed request inside the axios response
interceptor. -/
structure AxiosRequest where
  retryFlag : Bool
  auth : Option Jwt
deriving DecidableEq, Repr

inductive InterceptOutcome where
  | replay (req : AxiosRequest)
  | reject
deriving DecidableEq, Repr

/-- The axios response interceptor of `AuthService`
(`services/authService.ts`).  `status` is the failed response's status,
`refreshOutcome` the result of the `refreshToken()` call (made only when
attempted).  Returns the new agent state, the disposition of the original
request and whether a refresh attempt was made. -/
def responseInterceptor (st : AgentState) (req : AxiosRequest) (status : Nat)
    (refreshOutcome : Option Jwt) : AgentState × InterceptOutcome × Bool :=
  if status == 401 && !req.retryFlag then
    match refreshOutcome with
    | some tok =>
      ({ st with token := some tok, storedToken := some tok },
       .replay { retryFlag := true, auth := some tok }, true)
    | none =>
      ({ token := none, storedToken := none, redirectedToLogin := true },
       .reject, true)
  else (st, .reject, false)

/-! ## Concrete example state, shared by witnesses and counterexamples -/

/-- A local user as `POST /register` would create it. -/
def exUser : User :=
  { id := "u1", email := "a@x.com", password := some "h-pass",
    name := some "A", provider := some "local", isVerified := some true,
    createdAt := 0, updatedAt := 0 }

/-- The refresh token the subsystem mints for `exUser` at t = 1000
(payload `userId` only, exactly as the handlers call
`generateRefreshToken`). -/
def exRefreshTok : Jwt := generateRefreshToken { userId := "u1", email := none } 1000

/-- The store record `saveRefreshToken` writes for `exRefreshTok`. -/
def exRec : RefreshTokenRec :=
  { id := "r1", userId := "u1", token := exRefreshTok,
    createdAt := 1000, expiresAt := 1000 + refreshTtl }

/-- Database state right after `exUser` logged in: one user, one live
refresh token. -/
def exDB : DB := { users := [exUser], refreshTokens := [exRec] }

/-- The full user record `POST /register` writes for the concrete
registration used in witnesses (`hashP = fun _ => "h"`). -/
def exRegUserFull : User :=
  { id := "u1", email := "a@x.com", password := some "h", name := some "A",
    provider := some "local", isVerified := some true,
    createdAt := 1000, updatedAt := 1000 }

/-- The access token that registration mints. -/
def exRegAtk : Jwt := generateAccessToken { userId := "u1", email := some "a@x.com" } 1000

/-- Database state after the concrete registration. -/
def exDB2 : DB := { users := [exRegUserFull], refreshTokens := [exRec] }

/-- The Google profile data used in the C6 witness: same email as
`exUser` (a local account), supplying a `googleId` and an avatar but no
`githubId`. -/
def exGData : UserData :=
  { email := "a@x.com", googleId := some "g1", avatar := some "av",
    provider := some "google", name := some "G" }

/-- The concrete GitHub profile with no public email used in the C10
witness. -/
def exGhProfile : OAuthProfile :=
  { id := "gh9", username := "octo", displayName := none,
    emails := [], photos := ["pic"] }

/-! ## Helper lemmas -/

/-- One refresh call against a database holding a live record for the
presented, well-formed, unexpired refresh token succeeds and leaves the
database untouched. -/
theorem refreshHandler_success_of_stored (db : DB) (t : Jwt)
    (r : RefreshTokenRec) (now : Nat)
    (hr : r ∈ db.refreshTokens) (hrt : r.token = t)
    (hsec : t.secret = REFRESH_TOKEN_SECRET)
    (hiss : t.issuer = "secure-auth-app")
    (haud : t.audience = "secure-auth-client")
    (hexp : now < t.exp) (hre : now < r.expiresAt) :
    refreshHandler db (some t) now none =
      (.success (generateAccessToken t.claims now), db) := by
  have hver : verifyRefreshToken t now = some t.claims := by
    simp [verifyRefreshToken, jwtVerify, hsec, hiss, haud, hexp]
  have hget : ∃ x, getRefreshToken db t now = some x := by
    cases hfind : getRefreshToken db t now with
    | some x => exact ⟨x, rfl⟩
    | none =>
      exfalso
      have := List.find?_eq_none.mp hfind r hr
      simp [hrt, hre] at this
  obtain ⟨x, hx⟩ := hget
  simp [refreshHandler, hver, failsAt, hx]

/-- Lemma: `updateFirst` keeps the images of any function that the update leaves
invariant (pointwise), in particular the list of emails. -/
theorem map_updateFirst_eq (p : α → Bool) (f : α → α) (g : α → β)
    (hg : ∀ x, g (f x) = g x) :
    ∀ l : List α, (updateFirst p f l).map g = l.map g := by
  intro l
  induction l with
  | nil => rfl
  | cons x xs ih =>
    by_cases hx : p x
    · simp [updateFirst, hx, hg]
    · simp [updateFirst, hx, ih]

/-- Lemma: `updateFirst` preserves list length. -/
theorem length_updateFirst (p : α → Bool) (f : α → α) :
    ∀ l : List α, (updateFirst p f l).length = l.length := by
  intro l
  induction l with
  | nil => rfl
  | cons x xs ih =>
    by_cases hx : p x
    · simp [updateFirst, hx]
    · simp [updateFirst, hx, ih]

/-- When the first match of `p` is `u`, `updateFirst` returns the list
with exactly that occurrence replaced; here we only need that the update
commutes with `find?`'s choice: the updated list is the original with
`f u` at `u`'s position.  Stated as: membership of the updated element. -/
theorem updateFirst_of_find? (p : α → Bool) (f : α → α) :
    ∀ l : List α, ∀ u, l.find? p = some u →
      ∃ l1 l2, l = l1 ++ u :: l2 ∧ (∀ x ∈ l1, ¬ p x) ∧
        updateFirst p f l = l1 ++ f u :: l2 := by
  intro l
  induction l with
  | nil => intro u h; simp at h
  | cons x xs ih =>
    intro u h
    by_cases hx : p x
    · have h' : x = u := by simpa [List.find?_cons_of_pos _ hx] using h
      subst h'
      exact ⟨[], xs, rfl, by simp, by simp [updateFirst, hx]⟩
    · rw [List.find?_cons_of_neg _ hx] at h
      obtain ⟨l1, l2, heq, hl1, hupd⟩ := ih u h
      exact ⟨x :: l1, l2, by simp [heq], by simpa [hx] using hl1,
        by simp [updateFirst, hx, hupd]⟩


/-! ## Claims -/

/-- C1: while a stored refresh token has not been deleted and every
presentation happens before its 7-day expiry (both the token's own `exp`
and the record's `expiresAt`), every `Refresh` call in a row succeeds,
each returning the access token freshly minted at that call's time, and
the database — hence the stored refresh token — is left unchanged (no
rotation), so the same token value is accepted an unbounded number of
times. -/
theorem refresh_accepts_stored_token_repeatedly (db : DB) (t : Jwt)
    (r : RefreshTokenRec) (nows : List Nat)
    (hr : r ∈ db.refreshTokens) (hrt : r.token = t)
    (hsec : t.secret = REFRESH_TOKEN_SECRET)
    (hiss : t.issuer = "secure-auth-app")
    (haud : t.audience = "secure-auth-client")
    (hbound : ∀ n ∈ nows, n < t.exp ∧ n < r.expiresAt) :
    refreshSeq db t nows =
      (nows.map (fun n => RefreshResult.success (generateAccessToken t.claims n)), db) := by
  induction nows with
  | nil => rfl
  | cons n rest ih =>
    have hb := hbound n (by simp)
    have hstep := refreshHandler_success_of_stored db t r n hr hrt hsec hiss haud hb.1 hb.2
    have ihr := ih (fun m hm => hbound m (by simp [hm]))
    simp [refreshSeq, hstep, ihr]

/-- C1 witness: three consecutive refreshes with the concrete stored token
all succeed and the store is unchanged. -/
theorem refresh_accepts_stored_token_repeatedly_witness :
    refreshSeq exDB exRefreshTok [2000, 3000, 4000] =
      ([.success (generateAccessToken { userId := "u1", email := none } 2000),
        .success (generateAccessToken { userId := "u1", email := none } 3000),
        .success (generateAccessToken { userId := "u1", email := none } 4000)], exDB) := by
  have h := refresh_accepts_stored_token_repeatedly exDB exRefreshTok exRec
    [2000, 3000, 4000] (by decide) (by decide) (by decide) (by decide)
    (by decide) (by decide)
  simpa using h


/-- C2 counterexample: the claim says every minted access token carries an
`email` claim equal to the owning user's email, but the access token the
`Refresh` path mints for `exUser` (email `a@x.com`) carries no email claim
at all, because the refresh token's payload holds only `userId`. -/
theorem refresh_access_token_email_missing :
    (refreshHandler exDB (some exRefreshTok) 2000 none).1 =
      .success (generateAccessToken { userId := "u1", email := none } 2000) ∧
    (generateAccessToken { userId := "u1", email := none } 2000).claims.email = none ∧
    exRec.userId = exUser.id ∧ exUser.email = "a@x.com" := by
  refine ⟨by decide, rfl, rfl, rfl⟩

/-- C2 (amended): access tokens minted at Register, Login and the OAuth
callback carry `userId` and the owner's email together with issuer
`secure-auth-app`, audience `secure-auth-client` and a 15-minute expiry;
the Refresh path copies the decoded refresh payload into the new access
token, and since every refresh token the subsystem issues is generated
with `userId` only, a refresh-minted access token's email claim is absent
(it equals the refresh token's, which is `none`). -/
theorem access_token_claims_by_path :
    (∀ (db : DB) (e pw nm : String) (hashP : String → String) (uid rid : String)
       (now : Nat) (u : User) (atk rtk : Jwt) (db2 : DB),
       registerHandler db true e pw nm hashP uid rid now none =
         (.created u atk rtk, db2) →
       atk.claims.userId = u.id ∧ atk.claims.email = some u.email ∧
       atk.issuer = "secure-auth-app" ∧ atk.audience = "secure-auth-client" ∧
       atk.exp = now + accessTtl ∧
       rtk.claims.userId = u.id ∧ rtk.claims.email = none) ∧
    (∀ (db : DB) (e pw : String) (cmp : String → String → Bool) (rid : String)
       (now : Nat) (u : User) (atk rtk : Jwt) (db2 : DB),
       loginHandler db true e pw cmp rid now none = (.success u atk rtk, db2) →
       atk.claims.userId = u.id ∧ atk.claims.email = some u.email ∧
       atk.issuer = "secure-auth-app" ∧ atk.audience = "secure-auth-client" ∧
       atk.exp = now + accessTtl ∧
       rtk.claims.userId = u.id ∧ rtk.claims.email = none) ∧
    (∀ (db : DB) (user : User) (rid : String) (now : Nat) (atk : Jwt) (db2 : DB),
       oauthCallbackHandler db user rid now none = (.redirectSuccess atk, db2) →
       atk.claims.userId = user.id ∧ atk.claims.email = some user.email ∧
       atk.issuer = "secure-auth-app" ∧ atk.audience = "secure-auth-client" ∧
       atk.exp = now + accessTtl) ∧
    (∀ (db : DB) (t : Jwt) (now : Nat) (failAt : Option Nat) (atk : Jwt) (db2 : DB),
       refreshHandler db (some t) now failAt = (.success atk, db2) →
       atk = generateAccessToken t.claims now ∧
       atk.claims.email = t.claims.email) := by
  refine ⟨?_, ?_, ?_, ?_⟩
  · intro db e pw nm hashP uid rid now u atk rtk db2 h
    cases hfind : getUserByEmail db e with
    | some w => simp [registerHandler, hfind, failsAt] at h
    | none =>
      simp [registerHandler, hfind, failsAt, createUser, saveRefreshToken] at h
      obtain ⟨⟨hu, hatk, hrtk⟩, -⟩ := h
      subst hu hatk hrtk
      simp [generateAccessToken, generateRefreshToken, stripPassword]
  · intro db e pw cmp rid now u atk rtk db2 h
    cases hfind : getUserByEmail db e with
    | none => simp [loginHandler, hfind, failsAt] at h
    | some w =>
      by_cases hpw : truthy w.password
      · by_cases hcmp : cmp pw (w.password.getD "")
        · simp [loginHandler, hfind, failsAt, hpw, hcmp, saveRefreshToken] at h
          obtain ⟨⟨hu, hatk, hrtk⟩, -⟩ := h
          subst hu hatk hrtk
          simp [generateAccessToken, generateRefreshToken, stripPassword]
        · simp [loginHandler, hfind, failsAt, hpw, hcmp] at h
      · simp [loginHandler, hfind, failsAt, hpw] at h
  · intro db user rid now atk db2 h
    simp [oauthCallbackHandler, failsAt, saveRefreshToken] at h
    obtain ⟨hatk, _⟩ := h
    subst hatk
    simp [generateAccessToken]
  · intro db t now failAt atk db2 h
    cases hver : verifyRefreshToken t now with
    | none => simp [refreshHandler, hver] at h
    | some decoded =>
      have hdec : decoded = t.claims := by
        have := hver
        simp only [verifyRefreshToken, jwtVerify] at this
        by_cases hc : (t.secret == REFRESH_TOKEN_SECRET &&
            t.issuer == "secure-auth-app" &&
            t.audience == "secure-auth-client" && decide (now < t.exp)) = true
        · rw [if_pos hc] at this; exact (Option.some_inj.mp this).symm
        · rw [if_neg hc] at this; exact absurd this (by simp)
      subst hdec
      by_cases hfail : failsAt failAt 0
      · simp [refreshHandler, hver, hfail] at h
      · cases hget : getRefreshToken db t now with
        | none => simp [refreshHandler, hver, hfail, hget] at h
        | some r =>
          simp [refreshHandler, hver, hfail, hget] at h
          obtain ⟨hatk, _⟩ := h
          subst hatk
          exact ⟨rfl, rfl⟩

/-- C2 witness: the amended claim instantiated on a concrete register run
and a concrete refresh run. -/
theorem access_token_claims_by_path_witness :
    (exRegAtk.claims.userId = (stripPassword exRegUserFull).id ∧
     exRegAtk.claims.email = some (stripPassword exRegUserFull).email ∧
     exRegAtk.issuer = "secure-auth-app" ∧
     exRegAtk.audience = "secure-auth-client" ∧
     exRegAtk.exp = 1000 + accessTtl ∧
     exRefreshTok.claims.userId = (stripPassword exRegUserFull).id ∧
     exRefreshTok.claims.email = none) ∧
    (generateAccessToken { userId := "u1", email := none } 2000 =
       generateAccessToken exRefreshTok.claims 2000 ∧
     (generateAccessToken { userId := "u1", email := none } 2000).claims.email =
       exRefreshTok.claims.email) :=
  ⟨access_token_claims_by_path.1 ⟨[], []⟩ "a@x.com" "pw" "A" (fun _ => "h")
     "u1" "r1" 1000 (stripPassword exRegUserFull) exRegAtk exRefreshTok exDB2
     (by decide),
   access_token_claims_by_path.2.2.2 exDB exRefreshTok 2000 none
     (generateAccessToken { userId := "u1", email := none } 2000) exDB
     (by decide)⟩

/-- C3 counterexample: a persistence-collaborator failure during
`Refresh` is not surfaced as a generic server error.  The very request
that succeeds when the store works (valid signed cookie, live stored
record) answers 403 `Invalid refresh token` — a domain error — when the
store's `getRefreshToken` call throws, because the handler's `catch`
block returns that response. -/
theorem refresh_storage_failure_not_server_error :
    (refreshHandler exDB (some exRefreshTok) 2000 none).1.isSuccess = true ∧
    refreshHandler exDB (some exRefreshTok) 2000 (some 0) = (.invalidToken, exDB) ∧
    RefreshResult.status (refreshHandler exDB (some exRefreshTok) 2000 (some 0)).1 = 403 :=
  ⟨by decide, by decide, by decide⟩

/-- C3 (amended): a persistence failure is surfaced as the generic 500
server error by Register (whichever of its three storage calls fails),
Login (whether its `getUserByEmail` call fails, or its
`saveRefreshToken` call fails after the credentials have passed), Logout
and LogoutAll — but Refresh surfaces a persistence failure as its 403
`Invalid refresh token` domain response, the same answer a codec failure
or store miss produces.  `e` is an email no user owns; `e2`/`u2` a
credentials-passing login. -/
theorem storage_failure_surfacing (db : DB) (e e2 pw nm : String)
    (hashP : String → String) (cmp : String → String → Bool)
    (uid rid userId : String) (now : Nat) (t : Jwt) (u2 : User)
    (hne : getUserByEmail db e = none)
    (hfind2 : getUserByEmail db e2 = some u2)
    (hpw2 : truthy u2.password = true)
    (hcmp2 : cmp pw (u2.password.getD "") = true)
    (hsec : t.secret = REFRESH_TOKEN_SECRET)
    (hiss : t.issuer = "secure-auth-app")
    (haud : t.audience = "secure-auth-client")
    (hexp : now < t.exp) :
    registerHandler db true e pw nm hashP uid rid now (some 0) = (.serverError, db) ∧
    registerHandler db true e pw nm hashP uid rid now (some 1) = (.serverError, db) ∧
    (registerHandler db true e pw nm hashP uid rid now (some 2)).1 = .serverError ∧
    loginHandler db true e pw cmp rid now (some 0) = (.serverError, db) ∧
    loginHandler db true e2 pw cmp rid now (some 1) = (.serverError, db) ∧
    logoutHandler db (some t) (some 0) = (.serverError, db) ∧
    logoutAllHandler db userId (some 0) = (.serverError, db) ∧
    refreshHandler db (some t) now (some 0) = (.invalidToken, db) ∧
    RefreshResult.status .invalidToken = 403 ∧
    RegisterResult.status .serverError = 500 := by
  have hver : verifyRefreshToken t now = some t.claims := by
    simp [verifyRefreshToken, jwtVerify, hsec, hiss, haud, hexp]
  refine ⟨?_, ?_, ?_, ?_, ?_, ?_, ?_, ?_, rfl, rfl⟩
  · simp [registerHandler, failsAt]
  · simp [registerHandler, failsAt, hne]
  · simp [registerHandler, failsAt, hne, createUser]
  · simp [loginHandler, failsAt]
  · simp [loginHandler, failsAt, hfind2, hpw2, hcmp2]
  · simp [logoutHandler, failsAt]
  · simp [logoutAllHandler, failsAt]
  · simp [refreshHandler, hver, failsAt]

/-- C3 witness: the amended claim at a concrete state — Register's first
storage failure yields 500, Login's `saveRefreshToken` failure after the
concrete user's credentials pass yields 500, and Refresh's storage
failure yields the 403 domain response. -/
theorem storage_failure_surfacing_witness :
    registerHandler exDB true "b@y.com" "pw" "B" (fun _ => "h") "u9" "r9" 2000 (some 0) =
      (.serverError, exDB) ∧
    loginHandler exDB true "a@x.com" "pw" (fun _ dg => dg == "h-pass") "r9" 2000 (some 1) =
      (.serverError, exDB) ∧
    refreshHandler exDB (some exRefreshTok) 2000 (some 0) = (.invalidToken, exDB) := by
  have h := storage_failure_surfacing exDB "b@y.com" "a@x.com" "pw" "B" (fun _ => "h")
    (fun _ dg => dg == "h-pass") "u9" "r9" "u1" 2000 exRefreshTok exUser
    (by decide) (by decide) (by decide) (by decide) (by decide) (by decide)
    (by decide) (by decide)
  exact ⟨h.1, h.2.2.2.2.1, h.2.2.2.2.2.2.2.1⟩

/-- C4: once `Logout` presenting a refresh token has completed, the store
no longer holds that token value (`getRefreshToken` misses), so any later
`Refresh` presenting the same value — at any time, expired or not — is
rejected with the 403 `Invalid refresh token` response; this state
persists until a new identical token record is saved, and the database
produced by the logout is exactly the one with that token's records
deleted. -/
theorem logout_then_refresh_rejected (db : DB) (t : Jwt) (now2 : Nat) :
    logoutHandler db (some t) none = (.success, deleteRefreshToken db t) ∧
    getRefreshToken (deleteRefreshToken db t) t now2 = none ∧
    (refreshHandler (deleteRefreshToken db t) (some t) now2 none).1 = .invalidToken ∧
    RefreshResult.status
      (refreshHandler (deleteRefreshToken db t) (some t) now2 none).1 = 403 := by
  have hget : getRefreshToken (deleteRefreshToken db t) t now2 = none := by
    apply List.find?_eq_none.mpr
    intro rt hrt
    have hmem := List.mem_filter.mp hrt
    have hne : (rt.token == t) = false := by
      simpa using hmem.2
    simp [hne]
  have hrefresh : (refreshHandler (deleteRefreshToken db t) (some t) now2 none).1 =
      .invalidToken := by
    cases hver : verifyRefreshToken t now2 with
    | none => simp [refreshHandler, hver]
    | some decoded => simp [refreshHandler, hver, failsAt, hget]
  exact ⟨by simp [logoutHandler, failsAt], hget, hrefresh, by rw [hrefresh]; rfl⟩

/-- The OAuth in-place update never touches identity, credential or
provenance fields. -/
theorem applyOAuthUpdate_fixed (d : UserData) (now : Nat) (u : User) :
    (applyOAuthUpdate d now u).id = u.id ∧
    (applyOAuthUpdate d now u).email = u.email ∧
    (applyOAuthUpdate d now u).provider = u.provider ∧
    (applyOAuthUpdate d now u).name = u.name ∧
    (applyOAuthUpdate d now u).password = u.password ∧
    (applyOAuthUpdate d now u).isVerified = u.isVerified ∧
    (applyOAuthUpdate d now u).createdAt = u.createdAt ∧
    (applyOAuthUpdate d now u).updatedAt = now := by
  simp only [applyOAuthUpdate]
  split <;> split <;> split <;> simp

/-- C5: `LogoutAll` for user `U` succeeds and the resulting store is the
old one with exactly the records owned by `U` filtered out: every user
record and every other user's refresh-token record is byte-for-byte
unchanged, no record of `U` survives, and — given the spec's invariant
that raw token values are unique across records — a later `Refresh`
presenting any of `U`'s deleted token values fails. -/
theorem logout_all_frame (db : DB) (uidU : String) (htu : TokenUnique db) :
    logoutAllHandler db uidU none = (.success, deleteUserRefreshTokens db uidU) ∧
    (deleteUserRefreshTokens db uidU).users = db.users ∧
    (deleteUserRefreshTokens db uidU).refreshTokens =
      db.refreshTokens.filter (fun rt => !(rt.userId == uidU)) ∧
    (∀ r ∈ db.refreshTokens, r.userId ≠ uidU →
       r ∈ (deleteUserRefreshTokens db uidU).refreshTokens) ∧
    (∀ r ∈ (deleteUserRefreshTokens db uidU).refreshTokens, r.userId ≠ uidU) ∧
    (∀ r ∈ db.refreshTokens, r.userId = uidU → ∀ now2,
       (refreshHandler (deleteUserRefreshTokens db uidU) (some r.token) now2 none).1.isSuccess
         = false) := by
  refine ⟨by simp [logoutAllHandler, failsAt], rfl, rfl, ?_, ?_, ?_⟩
  · intro r hr hne
    simp [deleteUserRefreshTokens, List.mem_filter, hr, hne]
  · intro r hr
    have := (List.mem_filter.mp hr).2
    simpa using this
  · intro r hr hruid now2
    cases hver : verifyRefreshToken r.token now2 with
    | none => simp [refreshHandler, hver, RefreshResult.isSuccess]
    | some decoded =>
      have hget : getRefreshToken (deleteUserRefreshTokens db uidU) r.token now2 = none := by
        apply List.find?_eq_none.mpr
        intro rt hrt
        have hmem := List.mem_filter.mp hrt
        by_cases htok : rt.token = r.token
        · exfalso
          have heq : rt = r := List.inj_on_of_nodup_map htu hmem.1 hr htok
          have : (rt.userId == uidU) = false := by simpa using hmem.2
          rw [heq, hruid] at this
          simp at this
        · simp [htok]
      simp [refreshHandler, hver, failsAt, hget, RefreshResult.isSuccess]

/-- C5 witness: the frame property at the concrete single-user store. -/
theorem logout_all_frame_witness :
    logoutAllHandler exDB "u1" none = (.success, deleteUserRefreshTokens exDB "u1") ∧
    (deleteUserRefreshTokens exDB "u1").users = exDB.users := by
  have h := logout_all_frame exDB "u1" (by decide)
  exact ⟨h.1, h.2.1⟩

/-- The OAuth in-place update overwrites `googleId` only when the
incoming value is truthy. -/
theorem applyOAuthUpdate_googleId (d : UserData) (now : Nat) (u : User) :
    (applyOAuthUpdate d now u).googleId =
      if truthy d.googleId then d.googleId else u.googleId := by
  simp only [applyOAuthUpdate]
  split <;> split <;> split <;> simp

/-- The OAuth in-place update overwrites `githubId` only when the
incoming value is truthy. -/
theorem applyOAuthUpdate_githubId (d : UserData) (now : Nat) (u : User) :
    (applyOAuthUpdate d now u).githubId =
      if truthy d.githubId then d.githubId else u.githubId := by
  simp only [applyOAuthUpdate]
  split <;> split <;> split <;> simp

/-- The OAuth in-place update overwrites `avatar` only when the incoming
value is truthy. -/
theorem applyOAuthUpdate_avatar (d : UserData) (now : Nat) (u : User) :
    (applyOAuthUpdate d now u).avatar =
      if truthy d.avatar then d.avatar else u.avatar := by
  simp only [applyOAuthUpdate]
  split <;> split <;> split <;> simp

/-- C6: resolving an external identity whose email matches an existing
user returns that same user (same id, email, provider, name — and
password, verification flag, creation date — all unchanged), refreshes
`updatedAt`, overwrites each provider-id field and the avatar exactly
when the incoming profile supplies a truthy value for it (so fields of
the non-calling provider, for which the profile carries nothing, are
untouched), creates no second user record, and leaves the refresh-token
store alone. -/
theorem resolveExternal_existing_email (db : DB) (d : UserData) (u : User)
    (newId : String) (now : Nat)
    (hfind : db.users.find? (fun x => x.email == d.email) = some u) :
    (findOrCreateUser db d newId now).2 = applyOAuthUpdate d now u ∧
    (findOrCreateUser db d newId now).2.id = u.id ∧
    (findOrCreateUser db d newId now).2.email = u.email ∧
    (findOrCreateUser db d newId now).2.provider = u.provider ∧
    (findOrCreateUser db d newId now).2.name = u.name ∧
    (findOrCreateUser db d newId now).2.password = u.password ∧
    (findOrCreateUser db d newId now).2.isVerified = u.isVerified ∧
    (findOrCreateUser db d newId now).2.createdAt = u.createdAt ∧
    (findOrCreateUser db d newId now).2.updatedAt = now ∧
    (truthy d.googleId = true →
       (findOrCreateUser db d newId now).2.googleId = d.googleId) ∧
    (truthy d.googleId = false →
       (findOrCreateUser db d newId now).2.googleId = u.googleId) ∧
    (truthy d.githubId = true →
       (findOrCreateUser db d newId now).2.githubId = d.githubId) ∧
    (truthy d.githubId = false →
       (findOrCreateUser db d newId now).2.githubId = u.githubId) ∧
    (truthy d.avatar = true →
       (findOrCreateUser db d newId now).2.avatar = d.avatar) ∧
    (truthy d.avatar = false →
       (findOrCreateUser db d newId now).2.avatar = u.avatar) ∧
    (findOrCreateUser db d newId now).1.users.length = db.users.length ∧
    (findOrCreateUser db d newId now).1.refreshTokens = db.refreshTokens := by
  have h2 : (findOrCreateUser db d newId now).2 = applyOAuthUpdate d now u := by
    simp [findOrCreateUser, hfind]
  have h1u : (findOrCreateUser db d newId now).1.users =
      updateFirst (fun x => x.email == d.email) (applyOAuthUpdate d now) db.users := by
    simp [findOrCreateUser, hfind]
  have h1r : (findOrCreateUser db d newId now).1.refreshTokens = db.refreshTokens := by
    simp [findOrCreateUser, hfind]
  have hfix := applyOAuthUpdate_fixed d now u
  refine ⟨h2, ?_, ?_, ?_, ?_, ?_, ?_, ?_, ?_, ?_, ?_, ?_, ?_, ?_, ?_, ?_, h1r⟩
  · rw [h2]; exact hfix.1
  · rw [h2]; exact hfix.2.1
  · rw [h2]; exact hfix.2.2.1
  · rw [h2]; exact hfix.2.2.2.1
  · rw [h2]; exact hfix.2.2.2.2.1
  · rw [h2]; exact hfix.2.2.2.2.2.1
  · rw [h2]; exact hfix.2.2.2.2.2.2.1
  · rw [h2]; exact hfix.2.2.2.2.2.2.2
  · intro hg; rw [h2, applyOAuthUpdate_googleId]; simp [hg]
  · intro hg; rw [h2, applyOAuthUpdate_googleId]; simp [hg]
  · intro hg; rw [h2, applyOAuthUpdate_githubId]; simp [hg]
  · intro hg; rw [h2, applyOAuthUpdate_githubId]; simp [hg]
  · intro hg; rw [h2, applyOAuthUpdate_avatar]; simp [hg]
  · intro hg; rw [h2, applyOAuthUpdate_avatar]; simp [hg]
  · rw [h1u]; exact length_updateFirst _ _ db.users


/-- C6 witness: resolving the concrete Google identity against the local
`exUser` keeps the id and provider, backfills `googleId`, and creates no
record. -/
theorem resolveExternal_existing_email_witness :
    (findOrCreateUser exDB exGData "u9" 5000).2.id = exUser.id ∧
    (findOrCreateUser exDB exGData "u9" 5000).2.provider = exUser.provider ∧
    (findOrCreateUser exDB exGData "u9" 5000).2.googleId = exGData.googleId ∧
    (findOrCreateUser exDB exGData "u9" 5000).2.githubId = exUser.githubId ∧
    (findOrCreateUser exDB exGData "u9" 5000).1.users.length = exDB.users.length := by
  have h := resolveExternal_existing_email exDB exGData exUser "u9" 5000 (by decide)
  exact ⟨h.2.1, h.2.2.2.1,
    h.2.2.2.2.2.2.2.2.2.1 (by decide),
    h.2.2.2.2.2.2.2.2.2.2.2.2.1 (by decide),
    h.2.2.2.2.2.2.2.2.2.2.2.2.2.2.2.1⟩

/-- C7: for a validation-passing `Login` with a working store, the
request answers the single `invalidCredentials` response exactly when no
user exists for the email, or the user record's password digest is absent
or empty (provider-only account), or the digest check fails; the three
cases produce the identical response with the database untouched, so the
caller cannot tell them apart; and whenever a user with a truthy digest
passes the digest check, the request succeeds and returns that user
(password stripped) with fresh tokens. -/
theorem login_invalid_credentials_cases (db : DB) (e pw : String)
    (cmp : String → String → Bool) (rid : String) (now : Nat) :
    ((loginHandler db true e pw cmp rid now none).1 = .invalidCredentials ↔
      (match getUserByEmail db e with
       | none => True
       | some u => truthy u.password = false ∨ cmp pw (u.password.getD "") = false)) ∧
    ((loginHandler db true e pw cmp rid now none).1 = .invalidCredentials →
      (loginHandler db true e pw cmp rid now none).2 = db) ∧
    (∀ u, getUserByEmail db e = some u → truthy u.password = true →
      cmp pw (u.password.getD "") = true →
      loginHandler db true e pw cmp rid now none =
        (.success (stripPassword u)
           (generateAccessToken { userId := u.id, email := some u.email } now)
           (generateRefreshToken { userId := u.id, email := none } now),
         (saveRefreshToken db rid u.id
           (generateRefreshToken { userId := u.id, email := none } now) now).1)) := by
  refine ⟨?_, ?_, ?_⟩
  · cases hfind : getUserByEmail db e with
    | none => simp [loginHandler, hfind, failsAt]
    | some u =>
      by_cases hpw : truthy u.password
      · by_cases hc : cmp pw (u.password.getD "")
        · simp [loginHandler, hfind, failsAt, hpw, hc]
        · simp [loginHandler, hfind, failsAt, hpw, hc]
      · simp [loginHandler, hfind, failsAt, hpw]
  · intro hinv
    cases hfind : getUserByEmail db e with
    | none => simp [loginHandler, hfind, failsAt]
    | some u =>
      by_cases hpw : truthy u.password
      · by_cases hc : cmp pw (u.password.getD "")
        · simp [loginHandler, hfind, failsAt, hpw, hc] at hinv
        · simp [loginHandler, hfind, failsAt, hpw, hc]
      · simp [loginHandler, hfind, failsAt, hpw]
  · intro u hfind hpw hc
    simp [loginHandler, hfind, failsAt, hpw, hc]

/-- C7 witness: the concrete user logs in successfully under a digest
check that accepts its stored digest, and a lookup miss is answered with
`invalidCredentials`. -/
theorem login_invalid_credentials_cases_witness :
    loginHandler exDB true "a@x.com" "pw" (fun _ dg => dg == "h-pass") "r2" 5000 none =
      (.success (stripPassword exUser)
         (generateAccessToken { userId := "u1", email := some "a@x.com" } 5000)
         (generateRefreshToken { userId := "u1", email := none } 5000),
       (saveRefreshToken exDB "r2" "u1"
         (generateRefreshToken { userId := "u1", email := none } 5000) 5000).1) ∧
    (loginHandler exDB true "nobody@x.com" "pw" (fun _ dg => dg == "h-pass")
        "r2" 5000 none).1 = .invalidCredentials := by
  refine ⟨?_, ?_⟩
  · have h := (login_invalid_credentials_cases exDB "a@x.com" "pw"
      (fun _ dg => dg == "h-pass") "r2" 5000).2.2 exUser (by decide) (by decide) (by decide)
    simpa using h
  · have h := (login_invalid_credentials_cases exDB "nobody@x.com" "pw"
      (fun _ dg => dg == "h-pass") "r2" 5000).1
    have hmiss : getUserByEmail exDB "nobody@x.com" = none := by decide
    exact h.mpr (by rw [hmiss]; trivial)

/-- The refresh handler never writes the database. -/
theorem refreshHandler_db_eq (db : DB) (cookie : Option Jwt) (now : Nat)
    (failAt : Option Nat) : (refreshHandler db cookie now failAt).2 = db := by
  cases cookie with
  | none => rfl
  | some rt =>
    cases hver : verifyRefreshToken rt now with
    | none => simp [refreshHandler, hver]
    | some d =>
      by_cases hf : failsAt failAt 0
      · simp [refreshHandler, hver, hf]
      · cases hget : getRefreshToken db rt now with
        | none => simp [refreshHandler, hver, hf, hget]
        | some r => simp [refreshHandler, hver, hf, hget]

/-- Login never changes the users array. -/
theorem users_loginHandler (db : DB) (valid : Bool) (e pw : String)
    (cmp : String → String → Bool) (rid : String) (now : Nat)
    (failAt : Option Nat) :
    (loginHandler db valid e pw cmp rid now failAt).2.users = db.users := by
  by_cases hv : valid
  · by_cases hf : failsAt failAt 0
    · simp [loginHandler, hv, hf]
    · cases hfind : getUserByEmail db e with
      | none => simp [loginHandler, hv, hf, hfind]
      | some u =>
        by_cases hpw : truthy u.password
        · by_cases hc : cmp pw (u.password.getD "")
          · by_cases hf1 : failsAt failAt 1
            · simp [loginHandler, hv, hf, hfind, hpw, hc, hf1]
            · simp [loginHandler, hv, hf, hfind, hpw, hc, hf1, saveRefreshToken]
          · simp [loginHandler, hv, hf, hfind, hpw, hc]
        · simp [loginHandler, hv, hf, hfind, hpw]
  · simp [loginHandler, hv]

/-- Logout never changes the users array. -/
theorem users_logoutHandler (db : DB) (cookie : Option Jwt)
    (failAt : Option Nat) : (logoutHandler db cookie failAt).2.users = db.users := by
  cases cookie with
  | none => rfl
  | some rt =>
    by_cases hf : failsAt failAt 0
    · simp [logoutHandler, hf]
    · simp [logoutHandler, hf, deleteRefreshToken]

/-- Logout-all never changes the users array. -/
theorem users_logoutAllHandler (db : DB) (userId : String)
    (failAt : Option Nat) :
    (logoutAllHandler db userId failAt).2.users = db.users := by
  by_cases hf : failsAt failAt 0
  · simp [logoutAllHandler, hf]
  · simp [logoutAllHandler, hf, deleteUserRefreshTokens]

/-- The OAuth callback never changes the users array. -/
theorem users_oauthCallbackHandler (db : DB) (user : User) (rid : String)
    (now : Nat) (failAt : Option Nat) :
    (oauthCallbackHandler db user rid now failAt).2.users = db.users := by
  by_cases hf : failsAt failAt 0
  · simp [oauthCallbackHandler, hf]
  · simp [oauthCallbackHandler, hf, saveRefreshToken]

/-- Email uniqueness only looks at the users array. -/
theorem emailUnique_of_users_eq (a b : DB) (h : a.users = b.users)
    (hb : EmailUnique b) : EmailUnique a := by
  simp only [EmailUnique] at hb ⊢
  rw [h]
  exact hb

/-- Appending a user whose email no existing user has preserves email
uniqueness. -/
theorem emailUnique_push (db : DB) (u : User)
    (habs : getUserByEmail db u.email = none) (h : EmailUnique db) :
    EmailUnique { db with users := db.users ++ [u] } := by
  have habs' : ∀ x ∈ db.users, x.email ≠ u.email := by
    intro x hx
    have := List.find?_eq_none.mp habs x hx
    simpa using this
  simp only [EmailUnique] at h ⊢
  simp only [List.map_append, List.map_cons, List.map_nil]
  rw [List.nodup_append]
  refine ⟨h, by simp, ?_⟩
  intro a ha hb
  simp only [List.mem_singleton] at hb
  obtain ⟨x, hx, hxe⟩ := List.mem_map.mp ha
  exact habs' x hx (hxe.trans hb)

/-- C8: registering an email that some existing user already owns answers
the 409 duplicate response and leaves the whole database — in particular
the set of user records — unchanged; and email uniqueness across users is
preserved by every operation of the subsystem (register, identity
resolution, login, refresh, logout, logout-all, OAuth callback), under
any injected storage failure. -/
theorem register_duplicate_email_uniqueness (db : DB) (u : User)
    (pw nm : String) (hashP : String → String) (uid rid : String)
    (now : Nat) (hu : u ∈ db.users) :
    registerHandler db true u.email pw nm hashP uid rid now none = (.userExists, db) ∧
    (∀ (db2 : DB) (valid : Bool) (e p n : String) (h2 : String → String)
       (uid2 rid2 : String) (now2 : Nat) (failAt : Option Nat),
       EmailUnique db2 →
       EmailUnique (registerHandler db2 valid e p n h2 uid2 rid2 now2 failAt).2) ∧
    (∀ (db2 : DB) (d : UserData) (newId : String) (now2 : Nat),
       EmailUnique db2 → EmailUnique (findOrCreateUser db2 d newId now2).1) ∧
    (∀ (db2 : DB) (valid : Bool) (e p : String) (cmp2 : String → String → Bool)
       (rid2 : String) (now2 : Nat) (failAt : Option Nat),
       EmailUnique db2 →
       EmailUnique (loginHandler db2 valid e p cmp2 rid2 now2 failAt).2) ∧
    (∀ (db2 : DB) (cookie : Option Jwt) (now2 : Nat) (failAt : Option Nat),
       EmailUnique db2 → EmailUnique (refreshHandler db2 cookie now2 failAt).2) ∧
    (∀ (db2 : DB) (cookie : Option Jwt) (failAt : Option Nat),
       EmailUnique db2 → EmailUnique (logoutHandler db2 cookie failAt).2) ∧
    (∀ (db2 : DB) (uid2 : String) (failAt : Option Nat),
       EmailUnique db2 → EmailUnique (logoutAllHandler db2 uid2 failAt).2) ∧
    (∀ (db2 : DB) (user2 : User) (rid2 : String) (now2 : Nat) (failAt : Option Nat),
       EmailUnique db2 →
       EmailUnique (oauthCallbackHandler db2 user2 rid2 now2 failAt).2) := by
  refine ⟨?_, ?_, ?_, ?_, ?_, ?_, ?_, ?_⟩
  · have hsome : (getUserByEmail db u.email).isSome := by
      apply List.find?_isSome.mpr
      exact ⟨u, hu, by simp⟩
    cases hfind : getUserByEmail db u.email with
    | none => rw [hfind] at hsome; simp at hsome
    | some w => simp [registerHandler, failsAt, hfind]
  · intro db2 valid e p n h2 uid2 rid2 now2 failAt h
    by_cases hv : valid
    · by_cases hf : failsAt failAt 0
      · simpa [registerHandler, hv, hf] using h
      · cases hfind : getUserByEmail db2 e with
        | some w => simpa [registerHandler, hv, hf, hfind] using h
        | none =>
          have hpush : EmailUnique { db2 with users := db2.users ++
              [{ id := uid2, email := e, password := some (h2 p), name := some n,
                 avatar := none, provider := some "local", googleId := none,
                 githubId := none, isVerified := some true,
                 createdAt := now2, updatedAt := now2 }] } :=
            emailUnique_push db2 _ hfind h
          by_cases hf1 : failsAt failAt 1
          · simpa [registerHandler, hv, hf, hfind, hf1] using h
          · by_cases hf2 : failsAt failAt 2
            · simpa [registerHandler, hv, hf, hfind, hf1, hf2, createUser] using hpush
            · apply emailUnique_of_users_eq _
                { db2 with users := db2.users ++
                  [{ id := uid2, email := e, password := some (h2 p), name := some n,
                     avatar := none, provider := some "local", googleId := none,
                     githubId := none, isVerified := some true,
                     createdAt := now2, updatedAt := now2 }] }
                (by simp [registerHandler, hv, hf, hfind, hf1, hf2, createUser,
                      saveRefreshToken])
                hpush
    · simpa [registerHandler, hv] using h
  · intro db2 d newId now2 h
    cases hfind : db2.users.find? (fun x => x.email == d.email) with
    | none =>
      have hpush := emailUnique_push db2
        { id := newId, email := d.email, password := d.password, name := d.name,
          avatar := d.avatar, provider := d.provider, googleId := d.googleId,
          githubId := d.githubId, isVerified := d.isVerified,
          createdAt := now2, updatedAt := now2 }
        hfind h
      simpa [findOrCreateUser, hfind, createUser] using hpush
    | some w =>
      simp only [EmailUnique] at h ⊢
      have hmap : ((findOrCreateUser db2 d newId now2).1.users.map User.email) =
          db2.users.map User.email := by
        simp only [findOrCreateUser, hfind]
        exact map_updateFirst_eq _ _ _
          (fun x => (applyOAuthUpdate_fixed d now2 x).2.1) db2.users
      rw [hmap]
      exact h
  · intro db2 valid e p cmp2 rid2 now2 failAt h
    exact emailUnique_of_users_eq _ db2 (users_loginHandler ..) h
  · intro db2 cookie now2 failAt h
    exact emailUnique_of_users_eq _ db2
      (by rw [refreshHandler_db_eq]) h
  · intro db2 cookie failAt h
    exact emailUnique_of_users_eq _ db2 (users_logoutHandler ..) h
  · intro db2 uid2 failAt h
    exact emailUnique_of_users_eq _ db2 (users_logoutAllHandler ..) h
  · intro db2 user2 rid2 now2 failAt h
    exact emailUnique_of_users_eq _ db2 (users_oauthCallbackHandler ..) h

/-- C8 witness: registering `exUser`'s email again on the concrete store
is refused with the duplicate response, unchanged store; a fresh
registration keeps emails unique. -/
theorem register_duplicate_email_uniqueness_witness :
    registerHandler exDB true "a@x.com" "pw" "A" (fun _ => "h") "u9" "r9" 2000 none =
      (.userExists, exDB) ∧
    EmailUnique (registerHandler exDB true "b@y.com" "pw" "B" (fun _ => "h")
      "u9" "r9" 2000 none).2 := by
  have h := register_duplicate_email_uniqueness exDB exUser "pw" "A"
    (fun _ => "h") "u9" "r9" 2000 (by decide)
  exact ⟨h.1, h.2.1 exDB true "b@y.com" "pw" "B" (fun _ => "h") "u9" "r9" 2000 none
    (by decide)⟩

/-- C9: the response interceptor, on a 401 for a not-yet-retried call,
makes exactly one refresh attempt; on refresh success it stores the new
token (memory and localStorage) and replays the original call exactly
once, marked retried and carrying the new token; on refresh failure it
clears the held token and redirects to login without replaying.  A call
already marked retried — in particular the replayed call itself, whatever
status it comes back with — is rejected with no further refresh attempt,
and a non-401 failure triggers nothing. -/
theorem client_retry_once (st : AgentState) (req : AxiosRequest)
    (status : Nat) (tok : Jwt) (o : Option Jwt) :
    (req.retryFlag = false →
       responseInterceptor st req 401 (some tok) =
         ({ st with token := some tok, storedToken := some tok },
          .replay { retryFlag := true, auth := some tok }, true)) ∧
    (req.retryFlag = false →
       responseInterceptor st req 401 none =
         ({ token := none, storedToken := none, redirectedToLogin := true },
          .reject, true)) ∧
    (req.retryFlag = true →
       responseInterceptor st req status o = (st, .reject, false)) ∧
    (status ≠ 401 →
       responseInterceptor st req status o = (st, .reject, false)) ∧
    (∀ (st2 : AgentState) (s2 : Nat) (o2 : Option Jwt) (a : Option Jwt),
       responseInterceptor st2 { retryFlag := true, auth := a } s2 o2 =
         (st2, .reject, false)) := by
  refine ⟨?_, ?_, ?_, ?_, ?_⟩
  · intro hr; simp [responseInterceptor, hr]
  · intro hr; simp [responseInterceptor, hr]
  · intro hr; simp [responseInterceptor, hr]
  · intro hs
    have : (status == 401) = false := by simpa using hs
    simp [responseInterceptor, this]
  · intro st2 s2 o2 a; simp [responseInterceptor]

/-- C9 witness: a concrete 401 on a fresh call is replayed once with the
new token, and the replayed call is never retried again. -/
theorem client_retry_once_witness :
    responseInterceptor ⟨some exRegAtk, some exRegAtk, false⟩ ⟨false, some exRegAtk⟩
        401 (some exRefreshTok) =
      (⟨some exRefreshTok, some exRefreshTok, false⟩,
       .replay ⟨true, some exRefreshTok⟩, true) ∧
    responseInterceptor ⟨some exRefreshTok, some exRefreshTok, false⟩
        ⟨true, some exRefreshTok⟩ 401 (some exRegAtk) =
      (⟨some exRefreshTok, some exRefreshTok, false⟩, .reject, false) := by
  have h := client_retry_once ⟨some exRegAtk, some exRegAtk, false⟩
    ⟨false, some exRegAtk⟩ 401 exRefreshTok (some exRegAtk)
  exact ⟨h.1 rfl, h.2.2.2.2 ⟨some exRefreshTok, some exRefreshTok, false⟩ 401
    (some exRegAtk) (some exRefreshTok)⟩

/-- C10: when the GitHub profile exposes no public email, the strategy
callback resolves the identity under the synthesized address
`<username>@github.local`: the created user record carries exactly that
email, and a later callback with the same profile re-resolves to the same
user id without creating a second record. -/
theorem github_synthetic_email (p : OAuthProfile) (photo : String) (db : DB)
    (newId newId2 : String) (now now2 : Nat)
    (hph : p.photos.head? = some photo)
    (hem : p.emails = [])
    (hnone : db.users.find? (fun x => x.email == p.username ++ "@github.local") = none) :
    ∃ d, githubStrategyUserData p = Except.ok d ∧
      d.email = p.username ++ "@github.local" ∧
      (findOrCreateUser db d newId now).2.email = p.username ++ "@github.local" ∧
      (findOrCreateUser db d newId now).2.githubId = some p.id ∧
      (findOrCreateUser (findOrCreateUser db d newId now).1 d newId2 now2).2.id =
        (findOrCreateUser db d newId now).2.id ∧
      (findOrCreateUser (findOrCreateUser db d newId now).1 d newId2 now2).1.users.length =
        (findOrCreateUser db d newId now).1.users.length := by
  refine ⟨{ githubId := some p.id, email := p.username ++ "@github.local",
            name := some (jsOr p.displayName p.username), avatar := some photo,
            provider := some "github" }, ?_, rfl, ?_⟩
  · simp [githubStrategyUserData, hph, hem, jsOr]
  · set d : UserData :=
      { githubId := some p.id, email := p.username ++ "@github.local",
        name := some (jsOr p.displayName p.username), avatar := some photo,
        provider := some "github" } with hd
    set u1 : User :=
      { id := newId, email := p.username ++ "@github.local", password := none,
        name := some (jsOr p.displayName p.username), avatar := some photo,
        provider := some "github", googleId := none, githubId := some p.id,
        isVerified := none, createdAt := now, updatedAt := now } with hu1
    have hfirst : findOrCreateUser db d newId now =
        ({ db with users := db.users ++ [u1] }, u1) := by
      simp only [findOrCreateUser, hnone, createUser]
    have hfind2 : ({ db with users := db.users ++ [u1] } : DB).users.find?
        (fun x => x.email == d.email) = some u1 := by
      simp only [List.find?_append]
      rw [hnone]
      simp [hu1]
    refine ⟨by rw [hfirst], by rw [hfirst], ?_, ?_⟩
    · rw [hfirst]
      simp only [findOrCreateUser, hfind2]
      exact (applyOAuthUpdate_fixed d now2 u1).1
    · rw [hfirst]
      simp only [findOrCreateUser, hfind2]
      simp [length_updateFirst]


/-- C10 witness: the concrete no-public-email profile resolves under
`octo@github.local`. -/
theorem github_synthetic_email_witness :
    ∃ d, githubStrategyUserData exGhProfile = Except.ok d ∧
      d.email = "octo" ++ "@github.local" ∧
      (findOrCreateUser (⟨[], []⟩ : DB) d "u1" 10).2.email = "octo" ++ "@github.local" ∧
      (findOrCreateUser (⟨[], []⟩ : DB) d "u1" 10).2.githubId = some "gh9" ∧
      (findOrCreateUser (findOrCreateUser (⟨[], []⟩ : DB) d "u1" 10).1 d "u2" 20).2.id =
        (findOrCreateUser (⟨[], []⟩ : DB) d "u1" 10).2.id ∧
      (findOrCreateUser (findOrCreateUser (⟨[], []⟩ : DB) d "u1" 10).1 d "u2" 20).1.users.length =
        (findOrCreateUser (⟨[], []⟩ : DB) d "u1" 10).1.users.length :=
  github_synthetic_email exGhProfile "pic" ⟨[], []⟩ "u1" "u2" 10 20
    (by decide) rfl (by decide)

end Auth
